import Mathlib

/-!
Shallow embedding of `wrapper/model/ContainerConfig.py` (class `ContainerConfig`):
the mutable container-configuration aggregate of the Exegol wrapper, with its
hydration parsers (`__parseEnvs`, `__parseMounts`), feature toggles
(`enableGUI`, `enableCommonVolume`, `enableCwdShare`), imperative builders
(`addVolume`, `addEnv`, `addPort`) and derived queries (`getNetworkMode`,
`getWorkingDir`, `getFeaturesDetails`).

Python state mutation is modelled by explicit state passing; Python `dict`s by
insertion-ordered association lists with last-write-wins upsert; raised
exceptions by an `Option PyError` component (the state component still records
mutations performed before the raise, as the Python object keeps them) or by
`Except` for the parsers.
-/

/-- Python single-quote character, written by code point to keep literals simple. -/
def squoteChar : Char := Char.ofNat 39

/-- Python double-quote character, written by code point to keep literals simple. -/
def dquoteChar : Char := Char.ofNat 34

/-- Python `str.strip(c)` for a one-character argument: removes every leading and
trailing occurrence of `c`. -/
def pyStripChar (c : Char) (s : List Char) : List Char :=
  ((s.dropWhile (· = c)).reverse.dropWhile (· = c)).reverse

/-- Python `str.split(sep)` for a one-character separator and no maxsplit:
splits at EVERY occurrence of `sep` (this is what line 67 of the source does). -/
def pySplitChar (sep : Char) : List Char → List (List Char)
  | [] => [[]]
  | c :: rest =>
    let r := pySplitChar sep rest
    if c = sep then [] :: r
    else
      match r with
      | h :: t => (c :: h) :: t
      | [] => [[c]]

/-- Does `l` start with `p`? (helper for the substring test). -/
def startsWithL : List Char → List Char → Bool
  | [], _ => true
  | _ :: _, [] => false
  | p :: ps, c :: cs => p = c && startsWithL ps cs

/-- Substring search on character lists (helper for `pyIn`). -/
def containsL (pat : List Char) : List Char → Bool
  | [] => startsWithL pat []
  | c :: rest => startsWithL pat (c :: rest) || containsL pat rest

/-- Python `pat in s` for strings: substring containment. -/
def pyIn (pat s : String) : Bool := containsL pat.toList s.toList

/-- Python `str.lower()` on one character, for the ASCII range the protocol
check exercises. -/
def pyLowerChar (c : Char) : Char :=
  if 'A' ≤ c ∧ c ≤ 'Z' then Char.ofNat (c.toNat + 32) else c

/-- Python `str.lower()`: lowercase every character. -/
def pyLower (s : String) : String := String.mk (s.toList.map pyLowerChar)

/-- Python `f"{x}"` on an optional string: `None` renders as the literal text
`"None"`. -/
def pyStrOfOpt : Option String → String
  | none => "None"
  | some s => s

/-- Python dict upsert `d[k] = v`: overwrite in place if the key is present
(insertion position preserved), otherwise append. -/
def pyDictSet {α : Type} (d : List (String × α)) (k : String) (v : α) :
    List (String × α) :=
  if d.any (fun p => p.1 == k) then
    d.map (fun p => if p.1 == k then (k, v) else p)
  else d ++ [(k, v)]

/-- Python dict lookup `d.get(k)`. -/
def pyDictGet {α : Type} (d : List (String × α)) (k : String) : Option α :=
  (d.find? (fun p => p.1 == k)).map Prod.snd

/-- One host-port binding, the `{'HostIp': ..., 'HostPort': ...}` dict built by
`addPort`. -/
structure PortBinding where
  HostIp : String
  HostPort : String
deriving DecidableEq, Repr

/-- A `docker.types.Mount` as the source constructs it: positional arguments are
`target`, `source`; `target` and `source` may be Python `None` when taken from a
missing inspection key. -/
structure Mount where
  target : Option String
  source : Option String
  type : String
  read_only : Bool
  propagation : Option String
deriving DecidableEq, Repr

/-- Exceptions the modelled methods can raise. `protocolNotSupported` carries
the offending protocol string (the Python message interpolates it). -/
inductive PyError where
  | notImplemented
  | protocolNotSupported (protocol : String)
  | valueError
deriving DecidableEq, Repr

/-- The `ContainerConfig` state: every instance attribute set by `__init__`,
in declaration order. Dicts (`ports`, `envs`) are insertion-ordered association
lists. -/
structure ContainerConfig where
  enable_gui : Bool
  share_timezone : Bool
  common_resources : Bool
  network_host : Bool
  ports : List (String × List PortBinding)
  privileged : Bool
  mounts : List Mount
  devices : List String
  envs : List (String × String)
  interactive : Bool
  tty : Bool
  shm_size : String
  share_cwd : Option String
deriving DecidableEq, Repr

/-- Constructor `__init__` with no container: the documented defaults. -/
def ContainerConfig.default : ContainerConfig where
  enable_gui := false
  share_timezone := false
  common_resources := false
  network_host := true
  ports := []
  privileged := false
  mounts := []
  devices := []
  envs := []
  interactive := true
  tty := true
  shm_size := "1G"
  share_cwd := none

/-- One entry of the inspection data's `Mounts` list: a loosely-typed dict with
all keys optional. -/
structure InspectMount where
  mtype : Option String
  name : Option String
  driver : Option String
  source : Option String
  destination : Option String
  rw : Option Bool
  propagation : Option String
deriving DecidableEq, Repr

/-- One iteration of the `__parseEnvs` loop body, lines 64-68:
`key, value = env.strip(squote).strip(dquote).split(eq)`; unpacking into
exactly two names raises `ValueError` unless the split yields exactly two
pieces. -/
def parseEnv (env : String) : Except PyError (String × String) :=
  let stripped := pyStripChar dquoteChar (pyStripChar squoteChar env.toList)
  match pySplitChar '=' stripped with
  | [k, v] => .ok (String.mk k, String.mk v)
  | _ => .error .valueError

/-- The `__parseEnvs` loop over the envs dict component: each parsed pair is
upserted into `self.envs`; the first failing entry propagates. -/
def parseEnvsDict (d : List (String × String)) :
    List String → Except PyError (List (String × String))
  | [] => .ok d
  | e :: rest =>
    match parseEnv e with
    | .error err => .error err
    | .ok kv => parseEnvsDict (pyDictSet d kv.1 kv.2) rest

/-- Method `__parseEnvs` on the whole configuration (the loop touches only
`self.envs`). -/
def parseEnvsConfig (c : ContainerConfig) (envs : List String) :
    Except PyError ContainerConfig :=
  match parseEnvsDict c.envs envs with
  | .ok d => .ok { c with envs := d }
  | .error e => .error e

/-- One iteration of the `__parseMounts` loop body, lines 74-90: build the
`Mount` record, append it, then classify the destination by substring in the
fixed `if`/`elif` order timezone, resources, workspace. -/
def parseMount (c : ContainerConfig) (share : InspectMount) : ContainerConfig :=
  let typ := share.mtype.getD "volume"
  let source : Option String :=
    if typ == "volume" then
      some ("Docker " ++ share.driver.getD "" ++ " volume " ++ share.name.getD "unknown")
    else share.source
  let dest := share.destination.getD ""
  let c1 := { c with
    mounts := c.mounts ++
      [{ target := share.destination
         source := source
         type := typ
         read_only := ! share.rw.getD true
         propagation := some (share.propagation.getD "") }] }
  if pyIn "/etc/timezone" dest then { c1 with share_timezone := true }
  else if pyIn "/opt/resources" dest then { c1 with common_resources := true }
  else if pyIn "/workspace" dest then { c1 with share_cwd := some (share.source.getD "") }
  else c1

/-- Method `__parseMounts` over the list (a Python `None` list is passed as `[]`). -/
def parseMounts (c : ContainerConfig) (mounts : List InspectMount) : ContainerConfig :=
  mounts.foldl parseMount c

/-- Method `addVolume`, lines 137-140: append a `Mount(container_path, host_path, ...)`
(docker's positional order is target, source; propagation takes docker's
default `None`). -/
def addVolume (c : ContainerConfig) (host_path container_path : String)
    (read_only : Bool) (volume_type : String) : ContainerConfig :=
  { c with mounts := c.mounts ++
      [{ target := some container_path
         source := some host_path
         type := volume_type
         read_only := read_only
         propagation := none }] }

/-- Method `addEnv`, lines 153-155: dict upsert. -/
def addEnv (c : ContainerConfig) (key value : String) : ContainerConfig :=
  { c with envs := pyDictSet c.envs key value }

/-- The platform probe of `enableGUI`/`enableSharedTimezone`, line 94:
`platform.system() == "Windows" or "microsoft" in platform.release()`.
The probe results are passed in as values of the external environment query. -/
def platformUnsupported (system release : String) : Bool :=
  system == "Windows" || pyIn "microsoft" release

/-- Method `enableGUI`, lines 92-103. `system`/`release` are the platform probe
results and `display` is `os.getenv("DISPLAY")` (None when unset). On an
unsupported platform: logged error, no mutation. Otherwise, when the flag is
not yet set: set it, mount the X11 socket, add the two env vars (a `None`
DISPLAY renders as the text `None` inside the f-string). -/
def enableGUI (c : ContainerConfig) (system release : String)
    (display : Option String) : ContainerConfig :=
  if platformUnsupported system release then c
  else if ! c.enable_gui then
    let c1 := { c with enable_gui := true }
    let c2 := addVolume c1 "/tmp/.X11-unix" "/tmp/.X11-unix" false "bind"
    let c3 := addEnv c2 "QT_X11_NO_MITSHM" "1"
    addEnv c3 "DISPLAY" ("unix" ++ pyStrOfOpt display)
  else c

/-- Method `enableCommonVolume`, lines 116-120: only when the flag is not yet set,
set it and raise `NotImplementedError` (the mutation survives the raise). -/
def enableCommonVolume (c : ContainerConfig) : ContainerConfig × Option PyError :=
  if ! c.common_resources then
    ({ c with common_resources := true }, some .notImplemented)
  else (c, none)

/-- Method `enableCwdShare`, lines 122-126: unconditionally set `share_cwd` to the
current working directory (passed in as the value of the `os.getcwd()` query)
and bind-mount it to `/workspace`. -/
def enableCwdShare (c : ContainerConfig) (cwd : String) : ContainerConfig :=
  addVolume { c with share_cwd := some cwd } cwd "/workspace" false "bind"

/-- Method `getNetworkMode`, lines 128-130. -/
def getNetworkMode (c : ContainerConfig) : String :=
  if c.network_host then "host" else "bridge"

/-- Method `getWorkingDir`, lines 132-135: `"/workspace" if share_cwd is not None
else "/data"`. -/
def getWorkingDir (c : ContainerConfig) : String :=
  if c.share_cwd.isSome then "/workspace" else "/data"

/-- Method `addPort`, lines 157-166. Host-network mode: two logged warnings, no
mutation, no error. Otherwise validate the LOWERCASED protocol against
tcp/udp/sctp, then upsert under the key `f"{port_container}/{protocol}"`
(the protocol as given, the container port rendered Python-style with `None`
as the text `None`). -/
def addPort (c : ContainerConfig) (port_host : String) (port_container : Option String)
    (protocol : String) (host_ip : String) : ContainerConfig × Option PyError :=
  if c.network_host then (c, none)
  else if pyLower protocol ∉ (["tcp", "udp", "sctp"] : List String) then
    (c, some (.protocolNotSupported protocol))
  else
    let key := pyStrOfOpt port_container ++ "/" ++ protocol
    let binding : List PortBinding := [{ HostIp := host_ip, HostPort := port_host }]
    ({ c with ports := pyDictSet c.ports key binding }, none)

/-- Modelled from the spec: `getColor` lives in `wrapper.console.ConsoleFormat`,
which is not under `src/`. Per the rendering contract it emits opening and
closing styling marker tokens (newline-free) chosen by the boolean. -/
def getColor (b : Bool) : String × String :=
  if b then ("[green]", "[/green]") else ("[red]", "[/red]")

/-- Modelled from the spec: `boolFormatter` lives in
`wrapper.console.ConsoleFormat`, not under `src/`. Per the rendering contract
it renders a boolean as a single newline-free marker token. -/
def boolFormatter (b : Bool) : String :=
  if b then ":white_check_mark:" else ":cross_mark:"

/-- Value of `os.linesep` on the Linux hosts the wrapper targets. -/
def osLinesep : String := "\n"

/-- Method `getFeaturesDetails`, lines 168-174: the five-line feature summary built by
the f-string, with the spec-modelled formatting collaborators. -/
def getFeaturesDetails (c : ContainerConfig) : String :=
  (getColor c.privileged).1 ++ "Privileged: " ++
    (if c.privileged then ":fire:" else "[red]:cross_mark:[/red]") ++
    (getColor c.privileged).2 ++ osLinesep ++
  (getColor c.enable_gui).1 ++ "GUI: " ++ boolFormatter c.enable_gui ++
    (getColor c.enable_gui).2 ++ osLinesep ++
  "Network mode: " ++ (if c.network_host then "host" else "custom") ++ osLinesep ++
  (getColor c.share_timezone).1 ++ "Share timezone: " ++ boolFormatter c.share_timezone ++
    (getColor c.share_timezone).2 ++ osLinesep ++
  (getColor c.common_resources).1 ++ "Common resources: " ++ boolFormatter c.common_resources ++
    (getColor c.common_resources).2 ++ osLinesep

/-- The parsed `(key, value)` pairs an environment list denotes: each entry run
through the entry parser, `none` if any entry fails. Used to state the
round-trip property. -/
def parseEnvPairs : List String → Option (List (String × String))
  | [] => some []
  | e :: rest =>
    match parseEnv e with
    | .ok kv => (parseEnvPairs rest).map (kv :: ·)
    | .error _ => none

/-- The envs dict of a parse result, `[]` on error (to state counterexamples
without binders). -/
def envsOf : Except PyError ContainerConfig → List (String × String)
  | .ok c => c.envs
  | .error _ => []

/-- The `osLinesep`-separated lines of a rendered text block (the separator is
the single character `\n`). -/
def outputLines (s : String) : List String :=
  (pySplitChar (Char.ofNat 10) s.toList).map String.mk

/-! ### Helper lemmas about the dict model -/

/-- After an in-place overwrite of key `k`, lookup of `k` finds the new pair. -/
theorem find?_map_upsert {α : Type} (k : String) (v : α) (d : List (String × α))
    (h : d.any (fun p => p.1 == k) = true) :
    (d.map (fun p => if p.1 == k then (k, v) else p)).find? (fun p => p.1 == k) =
      some (k, v) := by
  induction d with
  | nil => simp at h
  | cons p rest ih =>
    simp only [List.map_cons]
    by_cases hp : (p.1 == k) = true
    · rw [if_pos hp]
      apply List.find?_cons_of_pos
      simp
    · rw [if_neg hp]
      have hstep :
          List.find? (fun q => q.1 == k)
              (p :: List.map (fun q => if q.1 == k then (k, v) else q) rest) =
            List.find? (fun q => q.1 == k)
              (List.map (fun q => if q.1 == k then (k, v) else q) rest) :=
        List.find?_cons_of_neg _ hp
      rw [hstep]
      apply ih
      simp only [List.any_cons, Bool.or_eq_true] at h
      exact h.resolve_left hp

/-- Appending a fresh binding makes lookup of its key find it. -/
theorem find?_append_fresh {α : Type} (k : String) (v : α) (d : List (String × α))
    (h : d.any (fun p => p.1 == k) = false) :
    (d ++ [(k, v)]).find? (fun p => p.1 == k) = some (k, v) := by
  have hnone : d.find? (fun p => p.1 == k) = none := by
    rw [List.find?_eq_none]
    exact List.any_eq_false.mp h
  rw [List.find?_append, hnone, List.find?_cons_of_pos _ (by simp)]
  rfl

/-- Dict upsert followed by lookup of the same key yields the new value. -/
theorem pyDictGet_pyDictSet {α : Type} (d : List (String × α)) (k : String) (v : α) :
    pyDictGet (pyDictSet d k v) k = some v := by
  unfold pyDictGet pyDictSet
  cases h : d.any (fun p => p.1 == k)
  · rw [if_neg (by simp [h]), find?_append_fresh k v d h]
    rfl
  · rw [if_pos (by simp [h]), find?_map_upsert k v d h]
    rfl

/-- Upserting a key absent from the dict appends the new binding. -/
theorem pyDictSet_fresh {α : Type} (d : List (String × α)) (k : String) (v : α)
    (h : k ∉ d.map Prod.fst) : pyDictSet d k v = d ++ [(k, v)] := by
  have hany : d.any (fun p => p.1 == k) = false := by
    rw [List.any_eq_false]
    intro p hp
    simp only [beq_iff_eq]
    intro he
    exact h (List.mem_map.mpr ⟨p, hp, he⟩)
  simp [pyDictSet, hany]

/-! ### Claim theorems -/

/-- C1 (amended): `enableCommonVolume` leaves `commonResources = true` in every
case, but the unimplemented-feature error is signaled iff `commonResources` was
false beforehand; when the flag was already true (prior call, or hydration of a
mount targeting `/opt/resources`), the call is a silent no-op. -/
theorem enableCommonVolume_spec (c : ContainerConfig) :
    (enableCommonVolume c).1 = { c with common_resources := true } ∧
    ((enableCommonVolume c).2 = some PyError.notImplemented ↔
      c.common_resources = false) := by
  cases c with
  | mk gui tz res nh ports priv mounts devs envs inter tty shm cwd =>
    cases res <;> simp [enableCommonVolume]

/-- C1 counterexample: the first call on a fresh configuration sets the flag
(and raises), and a second call signals NO error — refuting "the error is
signaled on every call, regardless of whether commonResources was already
true". -/
theorem enableCommonVolume_cex :
    (enableCommonVolume ContainerConfig.default).1.common_resources = true ∧
    (enableCommonVolume (enableCommonVolume ContainerConfig.default).1).2 = none := by
  decide

/-- C2 (code evaluated at the failing input): the source splits an entry on
EVERY `=` and unpacks into exactly two names, so `"KEY=a=b"` raises
`ValueError` instead of parsing with value `"a=b"`; an entry with a single `=`
parses, and one with no `=` raises as the claim says. -/
theorem parseEnv_eval :
    parseEnv "KEY=a=b" = .error PyError.valueError ∧
    parseEnv "KEY=a" = .ok ("KEY", "a") ∧
    parseEnv "KEY" = .error PyError.valueError :=
  ⟨rfl, rfl, rfl⟩

/-- C4: with networkHost=true, `addPort` is a silent no-op for every
combination of arguments: the whole state is returned unchanged and no error
is signaled. -/
theorem addPort_hostmode_noop (c : ContainerConfig) (hp : String) (pc : Option String)
    (proto ip : String) (h : c.network_host = true) :
    addPort c hp pc proto ip = (c, none) := by
  simp [addPort, h]

/-- C4 witness: concrete instance (even an invalid protocol is ignored). -/
theorem addPort_hostmode_noop_witness :
    addPort ContainerConfig.default "8080" (some "80") "ftp" "1.2.3.4" =
      (ContainerConfig.default, none) :=
  addPort_hostmode_noop ContainerConfig.default "8080" (some "80") "ftp" "1.2.3.4" rfl

/-- C3 (amended): with networkHost=false, `addPort` succeeds exactly when the
LOWERCASED protocol is tcp/udp/sctp (so e.g. "TCP" also succeeds), upserting
(overwriting) the binding under `"<containerPort>/<protocol>"` with the
protocol spelled as given; only when the lowercased protocol falls outside the
set does it signal protocol-not-supported and leave the state unchanged. -/
theorem addPort_protocol_spec (c : ContainerConfig) (hp : String) (pc : Option String)
    (proto ip : String) (hnh : c.network_host = false) :
    (pyLower proto ∈ (["tcp", "udp", "sctp"] : List String) →
      addPort c hp pc proto ip =
        ({ c with ports := (pyDictSet c.ports (pyStrOfOpt pc ++ "/" ++ proto)
            [{ HostIp := ip, HostPort := hp }]) }, none) ∧
      pyDictGet (addPort c hp pc proto ip).1.ports (pyStrOfOpt pc ++ "/" ++ proto) =
        some [{ HostIp := ip, HostPort := hp }]) ∧
    (pyLower proto ∉ (["tcp", "udp", "sctp"] : List String) →
      addPort c hp pc proto ip = (c, some (PyError.protocolNotSupported proto))) := by
  constructor
  · intro hmem
    have heq : addPort c hp pc proto ip =
        ({ c with ports := (pyDictSet c.ports (pyStrOfOpt pc ++ "/" ++ proto)
            [{ HostIp := ip, HostPort := hp }]) }, none) := by
      simp [addPort, hnh, hmem]
    exact ⟨heq, by rw [heq]; exact pyDictGet_pyDictSet c.ports _ _⟩
  · intro hmem
    simp [addPort, hnh, hmem]

/-- C3 counterexample: protocol "TCP" is not exactly "tcp"/"udp"/"sctp", yet
with networkHost=false the call signals no error and mutates `ports` — refuting
"for every other protocol string it signals a protocol-not-supported error and
leaves ports unchanged". -/
theorem addPort_protocol_cex :
    (addPort { ContainerConfig.default with network_host := false }
        "8080" none "TCP" "0.0.0.0").2 = none ∧
    (addPort { ContainerConfig.default with network_host := false }
        "8080" none "TCP" "0.0.0.0").1.ports =
      [("None/TCP", [{ HostIp := "0.0.0.0", HostPort := "8080" }])] := by
  decide

/-- C3 witness: both branches at concrete inputs. -/
theorem addPort_protocol_witness :
    addPort { ContainerConfig.default with network_host := false }
        "8080" (some "80") "tcp" "0.0.0.0" =
      ({ ContainerConfig.default with
          network_host := false,
          ports := (pyDictSet [] ("80" ++ "/" ++ "tcp")
            [{ HostIp := "0.0.0.0", HostPort := "8080" }]) }, none) ∧
    addPort { ContainerConfig.default with network_host := false }
        "8080" (some "80") "ftp" "0.0.0.0" =
      ({ ContainerConfig.default with network_host := false },
        some (PyError.protocolNotSupported "ftp")) := by
  constructor
  · exact ((addPort_protocol_spec { ContainerConfig.default with network_host := false }
      "8080" (some "80") "tcp" "0.0.0.0" rfl).1 (by decide)).1
  · exact (addPort_protocol_spec { ContainerConfig.default with network_host := false }
      "8080" (some "80") "ftp" "0.0.0.0" rfl).2 (by decide)

/-- C5: on a supported host platform (the probe is false), `enableGUI` is
idempotent — the second call returns the state of the first call unchanged
(mounts, envs and the guiEnabled flag included). -/
theorem enableGUI_idem (c : ContainerConfig) (system release : String)
    (display : Option String) (h : platformUnsupported system release = false) :
    enableGUI (enableGUI c system release display) system release display =
      enableGUI c system release display := by
  cases hg : c.enable_gui <;>
    simp [enableGUI, h, hg, addVolume, addEnv]

/-- C5 witness: concrete Linux platform probe and DISPLAY value. -/
theorem enableGUI_idem_witness :
    enableGUI (enableGUI ContainerConfig.default "Linux" "6.1.0" (some ":0"))
        "Linux" "6.1.0" (some ":0") =
      enableGUI ContainerConfig.default "Linux" "6.1.0" (some ":0") :=
  enableGUI_idem ContainerConfig.default "Linux" "6.1.0" (some ":0") (by decide)

/-- C6: a hydrated mount whose destination contains "/etc/timezone" sets
shareTimezone=true and, by the fixed `if`/`elif` priority order, leaves
commonResources and sharedCwd exactly as they were — even if the destination
also contains the lower-priority substrings. -/
theorem parseMount_timezone_excl (c : ContainerConfig) (share : InspectMount)
    (h : pyIn "/etc/timezone" (share.destination.getD "") = true) :
    (parseMount c share).share_timezone = true ∧
    (parseMount c share).common_resources = c.common_resources ∧
    (parseMount c share).share_cwd = c.share_cwd := by
  simp [parseMount, h]

/-- C6 witness: a concrete bind mount of `/etc/timezone`. -/
theorem parseMount_timezone_excl_witness :
    (parseMount ContainerConfig.default
      { mtype := some "bind", name := none, driver := none,
        source := some "/etc/timezone", destination := some "/etc/timezone",
        rw := some false, propagation := none }).share_timezone = true ∧
    (parseMount ContainerConfig.default
      { mtype := some "bind", name := none, driver := none,
        source := some "/etc/timezone", destination := some "/etc/timezone",
        rw := some false, propagation := none }).common_resources =
      ContainerConfig.default.common_resources ∧
    (parseMount ContainerConfig.default
      { mtype := some "bind", name := none, driver := none,
        source := some "/etc/timezone", destination := some "/etc/timezone",
        rw := some false, propagation := none }).share_cwd =
      ContainerConfig.default.share_cwd :=
  parseMount_timezone_excl ContainerConfig.default
    { mtype := some "bind", name := none, driver := none,
      source := some "/etc/timezone", destination := some "/etc/timezone",
      rw := some false, propagation := none } (by decide)

/-- C7 (amended): `getWorkingDir` returns "/workspace" exactly when sharedCwd
is set and "/data" otherwise; it returns "/data" on a fresh default
configuration, "/workspace" after `enableCwdShare`, and "/workspace" after
hydrating a mount whose destination contains "/workspace" PROVIDED the
destination contains neither "/etc/timezone" nor "/opt/resources" (those
higher-priority classifications would claim the mount instead). -/
theorem getWorkingDir_spec (c : ContainerConfig) (share : InspectMount) (cwd : String)
    (h1 : pyIn "/workspace" (share.destination.getD "") = true)
    (h2 : pyIn "/etc/timezone" (share.destination.getD "") = false)
    (h3 : pyIn "/opt/resources" (share.destination.getD "") = false) :
    getWorkingDir c = (if c.share_cwd.isSome then "/workspace" else "/data") ∧
    getWorkingDir ContainerConfig.default = "/data" ∧
    getWorkingDir (enableCwdShare c cwd) = "/workspace" ∧
    getWorkingDir (parseMount c share) = "/workspace" := by
  refine ⟨rfl, rfl, ?_, ?_⟩
  · simp [getWorkingDir, enableCwdShare, addVolume]
  · simp [getWorkingDir, parseMount, h1, h2, h3]

/-- C7 counterexample: a mount whose destination contains "/workspace" but is
classified as a timezone share by the higher-priority substring; the working
directory stays "/data" — refuting "/workspace after hydrating a mount whose
target contains /workspace". -/
theorem getWorkingDir_cex :
    getWorkingDir (parseMount ContainerConfig.default
      { mtype := some "bind", name := none, driver := none,
        source := some "/src", destination := some "/workspace/etc/timezone",
        rw := some true, propagation := none }) = "/data" ∧
    (parseMount ContainerConfig.default
      { mtype := some "bind", name := none, driver := none,
        source := some "/src", destination := some "/workspace/etc/timezone",
        rw := some true, propagation := none }).share_timezone = true := by
  decide

/-- C7 witness: concrete states for all four conjuncts. -/
theorem getWorkingDir_spec_witness :
    getWorkingDir ContainerConfig.default =
      (if ContainerConfig.default.share_cwd.isSome then "/workspace" else "/data") ∧
    getWorkingDir ContainerConfig.default = "/data" ∧
    getWorkingDir (enableCwdShare ContainerConfig.default "/home/user") = "/workspace" ∧
    getWorkingDir (parseMount ContainerConfig.default
      { mtype := some "bind", name := none, driver := none,
        source := some "/home/user", destination := some "/workspace",
        rw := some true, propagation := none }) = "/workspace" :=
  getWorkingDir_spec ContainerConfig.default
    { mtype := some "bind", name := none, driver := none,
      source := some "/home/user", destination := some "/workspace",
      rw := some true, propagation := none } "/home/user"
    (by decide) (by decide) (by decide)

/-- Keys of a list of parsed pairs, all fresh for an accumulator dict, stay
fresh through the upserting loop: helper induction for the round-trip. -/
theorem parseEnvsDict_fresh (input : List String) (pairs acc : List (String × String))
    (hp : parseEnvPairs input = some pairs)
    (hnd : (pairs.map Prod.fst).Nodup)
    (hdisj : ∀ k ∈ pairs.map Prod.fst, k ∉ acc.map Prod.fst) :
    parseEnvsDict acc input = .ok (acc ++ pairs) := by
  induction input generalizing pairs acc with
  | nil =>
    simp only [parseEnvPairs, Option.some.injEq] at hp
    subst hp
    simp [parseEnvsDict]
  | cons e rest ih =>
    unfold parseEnvPairs at hp
    cases he : parseEnv e with
    | error err => rw [he] at hp; simp at hp
    | ok kv =>
      rw [he] at hp
      cases hrest : parseEnvPairs rest with
      | none => rw [hrest] at hp; simp at hp
      | some ps =>
        rw [hrest] at hp
        simp at hp
        subst hp
        simp only [List.map_cons, List.nodup_cons] at hnd
        have hfresh : kv.1 ∉ acc.map Prod.fst := by
          apply hdisj
          simp
        simp only [parseEnvsDict, he]
        rw [pyDictSet_fresh acc kv.1 kv.2 hfresh]
        have hstep := ih ps (acc ++ [(kv.1, kv.2)]) hrest hnd.2 ?_
        · rw [hstep]
          simp
        · intro k hk
          have hk2 : k ∈ List.map Prod.fst (kv :: ps) :=
            List.mem_cons_of_mem kv.1 hk
          simp only [List.map_append, List.mem_append]
          rintro (hka | hkv)
          · exact hdisj k hk2 hka
          · simp at hkv
            exact hnd.1 (hkv ▸ hk)

/-- C8 (amended): for an environment list each of whose entries the code's
parser accepts AND whose parsed keys are pairwise distinct, parsing into the
envs mapping and re-serializing each entry as `key=value` reproduces exactly
the key/value pairs of the input (here even in order; duplicate keys are
collapsed by the dict, see the counterexample). -/
theorem parseEnvs_roundtrip (input : List String) (pairs : List (String × String))
    (hp : parseEnvPairs input = some pairs)
    (hnd : (pairs.map Prod.fst).Nodup) :
    ∃ cfg, parseEnvsConfig ContainerConfig.default input = .ok cfg ∧
      cfg.envs = pairs ∧
      cfg.envs.map (fun p => p.1 ++ "=" ++ p.2) =
        pairs.map (fun p => p.1 ++ "=" ++ p.2) := by
  have h := parseEnvsDict_fresh input pairs [] hp hnd (by simp)
  refine ⟨{ ContainerConfig.default with envs := pairs }, ?_, rfl, rfl⟩
  have hbase : ContainerConfig.default.envs = [] := rfl
  unfold parseEnvsConfig
  rw [hbase, h]
  simp

/-- C8 counterexample: the list `["A=1", "A=2"]` is valid per the claim (every
entry parses), yet the second upsert overwrites the first, so the re-serialized
set `{A=2}` is missing the original pair `("A", "1")`. -/
theorem parseEnvs_roundtrip_cex :
    parseEnvPairs ["A=1", "A=2"] = some [("A", "1"), ("A", "2")] ∧
    envsOf (parseEnvsConfig ContainerConfig.default ["A=1", "A=2"]) = [("A", "2")] ∧
    ("A", "1") ∈ [("A", "1"), ("A", "2")] ∧
    ("A", "1") ∉ envsOf (parseEnvsConfig ContainerConfig.default ["A=1", "A=2"]) := by
  refine ⟨rfl, rfl, by decide, by decide⟩

/-- C8 witness: a two-entry list with distinct keys round-trips. -/
theorem parseEnvs_roundtrip_witness :
    ∃ cfg, parseEnvsConfig ContainerConfig.default ["A=1", "B=2"] = .ok cfg ∧
      cfg.envs = [("A", "1"), ("B", "2")] ∧
      cfg.envs.map (fun p => p.1 ++ "=" ++ p.2) =
        [("A", "1"), ("B", "2")].map (fun p => p.1 ++ "=" ++ p.2) :=
  parseEnvs_roundtrip ["A=1", "B=2"] [("A", "1"), ("B", "2")] rfl (by decide)

/-- C9: with networkHost=false and the default (unset) container port, a valid
protocol stores the binding under the literal key `"None/<protocol>"` — the
unset port is rendered textually into the key, not rejected and not replaced
by the host port. -/
theorem addPort_none_container_key (c : ContainerConfig) (hp proto ip : String)
    (hnh : c.network_host = false)
    (hproto : pyLower proto ∈ (["tcp", "udp", "sctp"] : List String)) :
    (addPort c hp none proto ip).2 = none ∧
    pyDictGet (addPort c hp none proto ip).1.ports ("None/" ++ proto) =
      some [{ HostIp := ip, HostPort := hp }] := by
  have heq : addPort c hp none proto ip =
      ({ c with ports := (pyDictSet c.ports (pyStrOfOpt none ++ "/" ++ proto)
          [{ HostIp := ip, HostPort := hp }]) }, none) := by
    simp [addPort, hnh, hproto]
  refine ⟨by rw [heq], ?_⟩
  rw [heq]
  exact pyDictGet_pyDictSet c.ports (pyStrOfOpt none ++ "/" ++ proto)
    [{ HostIp := ip, HostPort := hp }]

/-- C9 witness: a concrete call with the container port left unset. -/
theorem addPort_none_container_key_witness :
    (addPort { ContainerConfig.default with network_host := false }
        "2222" none "udp" "127.0.0.1").2 = none ∧
    pyDictGet (addPort { ContainerConfig.default with network_host := false }
        "2222" none "udp" "127.0.0.1").1.ports ("None/" ++ "udp") =
      some [{ HostIp := "127.0.0.1", HostPort := "2222" }] :=
  addPort_none_container_key { ContainerConfig.default with network_host := false }
    "2222" "udp" "127.0.0.1" rfl (by decide)

/-- C10: `getNetworkMode` and the features summary disagree on the non-host
rendering: with networkHost=false the getter says "bridge" while the third
line of the summary says "Network mode: custom"; with networkHost=true both
render "host". -/
theorem networkMode_vs_features (c : ContainerConfig) :
    (c.network_host = false →
      getNetworkMode c = "bridge" ∧
      (outputLines (getFeaturesDetails c))[2]? = some "Network mode: custom" ∧
      getNetworkMode c ≠ "custom") ∧
    (c.network_host = true →
      getNetworkMode c = "host" ∧
      (outputLines (getFeaturesDetails c))[2]? = some "Network mode: host") := by
  cases c with
  | mk gui tz res nh ports priv mounts devs envs inter tty shm cwd =>
    cases nh <;> cases gui <;> cases tz <;> cases res <;> cases priv <;>
      constructor <;> intro h <;>
        first
          | exact Bool.noConfusion h
          | exact ⟨rfl, rfl, (by decide : ("bridge" : String) ≠ "custom")⟩
          | exact ⟨rfl, rfl⟩

/-- C10 witness: both network modes at concrete configurations. -/
theorem networkMode_vs_features_witness :
    (getNetworkMode { ContainerConfig.default with network_host := false } = "bridge" ∧
      (outputLines (getFeaturesDetails
        { ContainerConfig.default with network_host := false }))[2]? =
        some "Network mode: custom" ∧
      getNetworkMode { ContainerConfig.default with network_host := false } ≠ "custom") ∧
    (getNetworkMode ContainerConfig.default = "host" ∧
      (outputLines (getFeaturesDetails ContainerConfig.default))[2]? =
        some "Network mode: host") :=
  ⟨(networkMode_vs_features { ContainerConfig.default with network_host := false }).1 rfl,
   (networkMode_vs_features ContainerConfig.default).2 rfl⟩
